import Mathlib

/-!
Verification development for the vscode-xdebug-mcp extension.

The definitions below are a shallow embedding of the TypeScript sources:
`src/debug/dapBridge.ts` (session registry and DAP command bridge),
`src/mcp/server.ts` (MCP tool and resource handlers) and
`src/mcp/httpTransport.ts` (HTTP transport with body-size limit and
server lifecycle).  DAP numbers are modelled as `Int`; optional JS values
as `Option`; a thrown JS error as the `Except.error` branch; the external
`session.customRequest` primitive as an abstract per-session record of
response functions (`SessionRpc`).
-/

namespace XdebugMcp

/-! ## Data model (interfaces of dapBridge.ts) -/

/-- `StackFrame` from dapBridge.ts. -/
structure StackFrame where
  id : Int
  name : String
  line : Int
  column : Option Int := none
  deriving DecidableEq, Repr

/-- `Scope` from dapBridge.ts. -/
structure Scope where
  name : String
  variablesReference : Int
  expensive : Option Bool := none
  deriving DecidableEq, Repr

/-- `Variable` from dapBridge.ts. -/
structure Variable where
  name : String
  value : String
  type : Option String := none
  variablesReference : Option Int := none
  deriving DecidableEq, Repr

/-- `EvaluateResult` from dapBridge.ts (adapter extras omitted). -/
structure EvaluateResult where
  result : String
  type : Option String := none
  variablesReference : Option Int := none
  deriving DecidableEq, Repr

/-- `BreakpointUpdate` from dapBridge.ts. -/
structure BreakpointUpdate where
  id : Option Int := none
  verified : Option Bool := none
  message : Option String := none
  deriving DecidableEq, Repr

/-- `ThreadInfo` from dapBridge.ts. -/
structure ThreadInfo where
  id : Int
  name : String
  deriving DecidableEq, Repr

/-- The fields of a `vscode.DebugSession` that the bridge reads
(`workspaceFolder` already projected to its filesystem path). -/
structure DebugSession where
  id : String
  name : String
  type : String
  workspaceFolder : Option String := none
  deriving DecidableEq, Repr

/-- `DebugSessionInfo` from dapBridge.ts. -/
structure DebugSessionInfo where
  id : String
  name : String
  type : String
  workspaceFolder : Option String := none
  deriving DecidableEq, Repr

/-- `describeSession` from dapBridge.ts. -/
def describeSession (s : DebugSession) : DebugSessionInfo :=
  { id := s.id
    name := s.name
    type := s.type
    workspaceFolder := s.workspaceFolder }

/-- `DebugStatus` from dapBridge.ts; `threadId`/`threads` are always
assigned by `status`, so they are modelled as plain fields. -/
structure DebugStatus where
  session : DebugSessionInfo
  stopped : Bool
  threadId : Int
  threads : List ThreadInfo
  deriving DecidableEq, Repr

/-- An error thrown by the external `customRequest` primitive: its
`message` string and the optional `body.error.id` marker DAP adapters use. -/
structure RpcError where
  message : String
  bodyErrorId : Option String := none
  deriving DecidableEq, Repr

/-- Substring containment on character lists: some suffix of the haystack
starts with the needle. -/
def charsContain : List Char → List Char → Bool
  | hay, needle =>
    if needle.isPrefixOf hay then true
    else
      match hay with
      | [] => false
      | _ :: t => charsContain t needle

/-- `haystack.includes(needle)`, the JS substring test. -/
def strContains (haystack needle : String) : Bool :=
  charsContain haystack.data needle.data

/-- `isNotStoppedError` from dapBridge.ts / server.ts: the message mentions
`notStopped`, or the DAP error body carries the `notStopped` id. -/
def isNotStoppedError (e : RpcError) : Bool :=
  strContains e.message "notStopped" || e.bodyErrorId == some "notStopped"

/-- The value found at an expected array field of a DAP response: the field
may be absent, hold a non-array value, or hold an actual array. -/
inductive FieldVal (α : Type) where
  | absent
  | nonArray
  | arr (xs : List α)
  deriving DecidableEq, Repr

/-- `Array.isArray(x) ? x : []` applied to a response field. -/
def FieldVal.toList : FieldVal α → List α
  | .arr xs => xs
  | _ => []

/-! ## Request argument shapes sent over `customRequest` -/

/-- Arguments of a `stackTrace` request as built by `stack`/`status`. -/
structure StackArgs where
  threadId : Int
  startFrame : Int
  levels : Option Int
  deriving DecidableEq, Repr

/-- The `filter` enum of a `variables` request. -/
inductive VarFilter where
  | indexed
  | named
  deriving DecidableEq, Repr

/-- Arguments of a `variables` request. -/
structure VariablesArgs where
  variablesReference : Int
  start : Option Int := none
  count : Option Int := none
  filter : Option VarFilter := none
  deriving DecidableEq, Repr

/-- The `context` enum of an `evaluate` request. -/
inductive EvalContext where
  | watch
  | repl
  | hover
  | clipboard
  deriving DecidableEq, Repr

/-- Arguments of an `evaluate` request. -/
structure EvaluateArgs where
  expression : String
  frameId : Option Int
  context : Option EvalContext
  deriving DecidableEq, Repr

/-- `SourceBreakpoint` from dapBridge.ts. -/
structure SourceBreakpoint where
  line : Int
  condition : Option String := none
  hitCondition : Option String := none
  logMessage : Option String := none
  deriving DecidableEq, Repr

/-- `FunctionBreakpoint` from dapBridge.ts. -/
structure FunctionBreakpoint where
  name : String
  condition : Option String := none
  hitCondition : Option String := none
  deriving DecidableEq, Repr

/-- Arguments of a `setBreakpoints` request. -/
structure SetBreakpointsArgs where
  sourcePath : String
  breakpoints : List SourceBreakpoint
  sourceModified : Bool
  deriving DecidableEq, Repr

/-- Arguments of a `setExceptionBreakpoints` request; the adapter-specific
`exceptionOptions` values are treated as uninterpreted strings. -/
structure SetExceptionArgs where
  filters : List String
  exceptionOptions : Option (List String)
  deriving DecidableEq, Repr

/-- The behaviour of one debug session's `customRequest` endpoint, one
response function per request kind used by the bridge.  List-shaped
responses expose their expected array field as a `FieldVal`. -/
structure SessionRpc where
  threads : Except RpcError (FieldVal ThreadInfo)
  stackTrace : StackArgs → Except RpcError (FieldVal StackFrame)
  scopes : Int → Except RpcError (FieldVal Scope)
  «variables» : VariablesArgs → Except RpcError (FieldVal Variable)
  evaluate : EvaluateArgs → Except RpcError EvaluateResult
  setBreakpoints : SetBreakpointsArgs → Except RpcError (FieldVal BreakpointUpdate)
  setFunctionBreakpoints : List FunctionBreakpoint → Except RpcError (FieldVal BreakpointUpdate)
  setExceptionBreakpoints : SetExceptionArgs → Except RpcError (FieldVal BreakpointUpdate)

/-! ## Session registry (dapBridge.ts) -/

/-- The module-level `sessionRegistry` `Map`, as an association list kept in
insertion order (JS `Map` iteration order). -/
abbrev Registry := List (String × DebugSession)

/-- `Map.get`. -/
def registryGet (r : Registry) (sessionId : String) : Option DebugSession :=
  (r.find? (fun p => p.1 == sessionId)).map (fun p => p.2)

/-- `Map.has`. -/
def registryHas (r : Registry) (sessionId : String) : Bool :=
  r.any (fun p => p.1 == sessionId)

/-- `Map.set`: update in place when the key exists, else append (JS `Map`
keeps the original insertion position on update). -/
def registrySet (r : Registry) (sessionId : String) (s : DebugSession) : Registry :=
  if registryHas r sessionId then
    r.map (fun p => if p.1 == sessionId then (sessionId, s) else p)
  else
    r ++ [(sessionId, s)]

/-- `trackSession` from dapBridge.ts. -/
def trackSession (r : Registry) (s : DebugSession) : Registry :=
  registrySet r s.id s

/-- The process-wide mutable state the bridge reads: the session registry
plus the host's `vscode.debug.activeDebugSession` pointer. -/
structure DebugWorld where
  registry : Registry
  active : Option DebugSession
  deriving DecidableEq, Repr

/-- Errors raised by the bridge layer. -/
inductive BridgeError where
  | sessionNotFound (sessionId : String)
  | noActiveSession
  | rpc (e : RpcError)
  deriving DecidableEq, Repr

/-- `getSession` from dapBridge.ts: explicit id resolved against the
registry, otherwise the host's active session. -/
def getSession (w : DebugWorld) : Option String → Except BridgeError DebugSession
  | some sessionId =>
    match registryGet w.registry sessionId with
    | some s => .ok s
    | none => .error (.sessionNotFound sessionId)
  | none =>
    match w.active with
    | some s => .ok s
    | none => .error .noActiveSession

/-- `getSession` viewed as a state transition: the source function performs
no mutation of the registry, so the world is returned unchanged. -/
def getSessionStep (w : DebugWorld) (sessionId : Option String) :
    Except BridgeError DebugSession × DebugWorld :=
  (getSession w sessionId, w)

/-- `listSessions` from dapBridge.ts: first track the active session when it
is not yet in the registry, then list the registry's values. -/
def listSessionsOp (w : DebugWorld) : List DebugSessionInfo × DebugWorld :=
  let w2 :=
    match w.active with
    | some s =>
      if registryHas w.registry s.id then w
      else { w with registry := trackSession w.registry s }
    | none => w
  (w2.registry.map (fun p => describeSession p.2), w2)

/-! ## Command bridge operations (dapBridge.ts)

Each operation resolves a session (`getSession`), issues its RPC against
that session's `SessionRpc` record (looked up by session id through
`rpcOf`), and normalizes the result exactly as the source does. -/

/-- `safeThreads` from dapBridge.ts: thread enumeration is best-effort; any
failure and any non-array `threads` field yield the empty list. -/
def safeThreads (rpc : SessionRpc) : List ThreadInfo :=
  match rpc.threads with
  | .ok v => v.toList
  | .error _ => []

/-- `threads` from dapBridge.ts. -/
def threadsOp (w : DebugWorld) (rpcOf : String → SessionRpc)
    (sessionId : Option String) : Except BridgeError (List ThreadInfo) :=
  match getSession w sessionId with
  | .error e => .error e
  | .ok s =>
    match (rpcOf s.id).threads with
    | .ok v => .ok v.toList
    | .error e => .error (.rpc e)

/-- The probing thread id picked by `status`: `threads[0]?.id ?? 1`. -/
def probeThreadId (rpc : SessionRpc) : Int :=
  (((safeThreads rpc).head?).map ThreadInfo.id).getD 1

/-- `status` from dapBridge.ts: best-effort threads, then a 1-level
`stackTrace` probe; success means stopped, a `notStopped` failure means
running, any other failure propagates. -/
def statusOp (w : DebugWorld) (rpcOf : String → SessionRpc)
    (sessionId : Option String) : Except BridgeError DebugStatus :=
  match getSession w sessionId with
  | .error e => .error e
  | .ok s =>
    let sessionInfo := describeSession s
    let rpc := rpcOf s.id
    let threads := safeThreads rpc
    let threadId := ((threads.head?).map ThreadInfo.id).getD 1
    match rpc.stackTrace { threadId := threadId, startFrame := 0, levels := some 1 } with
    | .ok _ =>
      .ok { session := sessionInfo, stopped := true, threadId := threadId, threads := threads }
    | .error e =>
      if isNotStoppedError e then
        .ok { session := sessionInfo, stopped := false, threadId := threadId, threads := threads }
      else
        .error (.rpc e)

/-- Options of `stack` from dapBridge.ts. -/
structure StackOptions where
  sessionId : Option String := none
  threadId : Option Int := none
  startFrame : Option Int := none
  levels : Option Int := none
  deriving DecidableEq, Repr

/-- `stack` from dapBridge.ts: `threadId ?? 1`, `startFrame ?? 0`, `levels`
passed through; a non-array `stackFrames` field yields `[]`. -/
def stackOp (w : DebugWorld) (rpcOf : String → SessionRpc)
    (o : StackOptions) : Except BridgeError (List StackFrame) :=
  match getSession w o.sessionId with
  | .error e => .error e
  | .ok s =>
    match (rpcOf s.id).stackTrace
        { threadId := o.threadId.getD 1, startFrame := o.startFrame.getD 0, levels := o.levels } with
    | .ok v => .ok v.toList
    | .error e => .error (.rpc e)

/-- `scopes` from dapBridge.ts. -/
def scopesOp (w : DebugWorld) (rpcOf : String → SessionRpc)
    (frameId : Int) (sessionId : Option String) : Except BridgeError (List Scope) :=
  match getSession w sessionId with
  | .error e => .error e
  | .ok s =>
    match (rpcOf s.id).scopes frameId with
    | .ok v => .ok v.toList
    | .error e => .error (.rpc e)

/-- Options of `variables` from dapBridge.ts. -/
structure VariablesOptions where
  sessionId : Option String := none
  variablesReference : Int
  start : Option Int := none
  count : Option Int := none
  filter : Option VarFilter := none
  deriving DecidableEq, Repr

/-- `variables` from dapBridge.ts. -/
def variablesOp (w : DebugWorld) (rpcOf : String → SessionRpc)
    (o : VariablesOptions) : Except BridgeError (List Variable) :=
  match getSession w o.sessionId with
  | .error e => .error e
  | .ok s =>
    match (rpcOf s.id).variables
        { variablesReference := o.variablesReference, start := o.start
          count := o.count, filter := o.filter } with
    | .ok v => .ok v.toList
    | .error e => .error (.rpc e)

/-- Options of `evaluate` from dapBridge.ts. -/
structure EvaluateOptions where
  sessionId : Option String := none
  expression : String
  frameId : Option Int := none
  context : Option EvalContext := none
  deriving DecidableEq, Repr

/-- `evaluate` from dapBridge.ts: a pass-through RPC; the bridge does not
default the frame id. -/
def evaluateOp (w : DebugWorld) (rpcOf : String → SessionRpc)
    (o : EvaluateOptions) : Except BridgeError EvaluateResult :=
  match getSession w o.sessionId with
  | .error e => .error e
  | .ok s =>
    match (rpcOf s.id).evaluate
        { expression := o.expression, frameId := o.frameId, context := o.context } with
    | .ok r => .ok r
    | .error e => .error (.rpc e)

/-- Options of `setFileBreakpoints` from dapBridge.ts. -/
structure SetFileBreakpointsOptions where
  sessionId : Option String := none
  file : String
  breakpoints : List SourceBreakpoint
  sourceModified : Option Bool := none
  deriving DecidableEq, Repr

/-- `setFileBreakpoints` from dapBridge.ts: one `setBreakpoints` RPC keyed
by file path, `sourceModified ?? false`. -/
def setFileBreakpointsOp (w : DebugWorld) (rpcOf : String → SessionRpc)
    (o : SetFileBreakpointsOptions) : Except BridgeError (List BreakpointUpdate) :=
  match getSession w o.sessionId with
  | .error e => .error e
  | .ok s =>
    match (rpcOf s.id).setBreakpoints
        { sourcePath := o.file, breakpoints := o.breakpoints
          sourceModified := o.sourceModified.getD false } with
    | .ok v => .ok v.toList
    | .error e => .error (.rpc e)

/-- Options of `clearFileBreakpoints` from dapBridge.ts. -/
structure ClearFileBreakpointsOptions where
  sessionId : Option String := none
  file : String
  deriving DecidableEq, Repr

/-- `clearFileBreakpoints` from dapBridge.ts: delegates to
`setFileBreakpoints` with an empty breakpoint list. -/
def clearFileBreakpointsOp (w : DebugWorld) (rpcOf : String → SessionRpc)
    (o : ClearFileBreakpointsOptions) : Except BridgeError (List BreakpointUpdate) :=
  setFileBreakpointsOp w rpcOf
    { sessionId := o.sessionId, file := o.file, breakpoints := [] }

/-- `setFunctionBreakpoints` from dapBridge.ts. -/
def setFunctionBreakpointsOp (w : DebugWorld) (rpcOf : String → SessionRpc)
    (sessionId : Option String) (breakpoints : List FunctionBreakpoint) :
    Except BridgeError (List BreakpointUpdate) :=
  match getSession w sessionId with
  | .error e => .error e
  | .ok s =>
    match (rpcOf s.id).setFunctionBreakpoints breakpoints with
    | .ok v => .ok v.toList
    | .error e => .error (.rpc e)

/-- `setExceptionBreakpoints` from dapBridge.ts. -/
def setExceptionBreakpointsOp (w : DebugWorld) (rpcOf : String → SessionRpc)
    (sessionId : Option String) (filters : List String)
    (exceptionOptions : Option (List String)) :
    Except BridgeError (List BreakpointUpdate) :=
  match getSession w sessionId with
  | .error e => .error e
  | .ok s =>
    match (rpcOf s.id).setExceptionBreakpoints
        { filters := filters, exceptionOptions := exceptionOptions } with
    | .ok v => .ok v.toList
    | .error e => .error (.rpc e)

/-! ## MCP tool and resource handlers (server.ts) -/

/-- The result of the JS `Number(x)` conversion applied to the templated
resource's path parameter: either `NaN` or a numeric value (modelled at
integer precision, which is all the development needs). -/
inductive JsNum where
  | nan
  | val (n : Int)
  deriving DecidableEq, Repr

/-- Errors raised by a resource handler: the `InvalidArguments` throw of the
handler itself, or a propagated bridge error. -/
inductive ResourceError where
  | invalidArguments
  | bridge (e : BridgeError)
  deriving DecidableEq, Repr

/-- The Frame Variables resource handler from server.ts: reject a `NaN`
frame id, else fetch the frame's scopes and the first scope's variables
(empty list when there is no scope). -/
def frameVariablesResource (w : DebugWorld) (rpcOf : String → SessionRpc)
    (frameId : JsNum) : Except ResourceError (List Variable) :=
  match frameId with
  | .nan => .error .invalidArguments
  | .val n =>
    match scopesOp w rpcOf n none with
    | .error e => .error (.bridge e)
    | .ok scopeList =>
      match scopeList.head? with
      | some firstScope =>
        match variablesOp w rpcOf { variablesReference := firstScope.variablesReference } with
        | .error e => .error (.bridge e)
        | .ok vars => .ok vars
      | none => .ok []

/-- One `{scope, variables}` pair built by the snapshot tool. -/
structure ScopeVariables where
  scope : Scope
  «variables» : List Variable
  deriving DecidableEq, Repr

/-- The structured payload returned by the snapshot tool. -/
structure SnapshotResult where
  frame : Option StackFrame
  scopes : List ScopeVariables
  deriving DecidableEq, Repr

/-- The scope loop of the snapshot tool handler: skip a scope when
`scope.expensive && !includeExpensive` (JS truthiness on the optional
booleans), else fetch its variables with `count := maxVariables`. -/
def snapshotFetch (w : DebugWorld) (rpcOf : String → SessionRpc)
    (sessionId : Option String) (includeExpensive : Option Bool)
    (maxVariables : Option Int) : List Scope → Except BridgeError (List ScopeVariables)
  | [] => .ok []
  | scope :: rest =>
    if scope.expensive == some true && !(includeExpensive == some true) then
      snapshotFetch w rpcOf sessionId includeExpensive maxVariables rest
    else
      match variablesOp w rpcOf
          { sessionId := sessionId, variablesReference := scope.variablesReference
            count := maxVariables } with
      | .error e => .error e
      | .ok vars =>
        match snapshotFetch w rpcOf sessionId includeExpensive maxVariables rest with
        | .error e => .error e
        | .ok tail => .ok ({ scope := scope, «variables» := vars } :: tail)

/-- The snapshot tool handler from server.ts: one stack level from frame 0;
no frame means `{frame: null, scopes: []}`; otherwise that frame's scopes,
each non-skipped scope paired with its variables. -/
def snapshotTool (w : DebugWorld) (rpcOf : String → SessionRpc)
    (sessionId : Option String) (threadId : Option Int)
    (includeExpensive : Option Bool) (maxVariables : Option Int) :
    Except BridgeError SnapshotResult :=
  match stackOp w rpcOf
      { sessionId := sessionId, threadId := threadId, startFrame := some 0, levels := some 1 } with
  | .error e => .error e
  | .ok frames =>
    match frames.head? with
    | none => .ok { frame := none, scopes := [] }
    | some frame =>
      match scopesOp w rpcOf frame.id sessionId with
      | .error e => .error e
      | .ok scopeList =>
        match snapshotFetch w rpcOf sessionId includeExpensive maxVariables scopeList with
        | .error e => .error e
        | .ok scopedVars => .ok { frame := some frame, scopes := scopedVars }

/-- JS falsiness of the optional numeric `frameId` argument:
`!x` is true for `undefined` and for `0`. -/
def jsFalsyNum : Option Int → Bool
  | none => true
  | some n => n == 0

/-- The `evaluate_expr` tool handler from server.ts: when `frameId` is
falsy, fetch one stack level and use the top frame's id (which may be
absent), then issue the evaluate RPC. -/
def evaluateExprTool (w : DebugWorld) (rpcOf : String → SessionRpc)
    (sessionId : Option String) (expr : String) (frameId : Option Int)
    (context : Option EvalContext) (threadId : Option Int) :
    Except BridgeError EvaluateResult :=
  if jsFalsyNum frameId then
    match stackOp w rpcOf
        { sessionId := sessionId, threadId := threadId, startFrame := some 0, levels := some 1 } with
    | .error e => .error e
    | .ok frames =>
      evaluateOp w rpcOf
        { sessionId := sessionId, expression := expr
          frameId := (frames.head?).map StackFrame.id, context := context }
  else
    evaluateOp w rpcOf
      { sessionId := sessionId, expression := expr, frameId := frameId, context := context }

/-- The structured payload returned by `wait_for_stop`; the handler always
builds it with the literal `stopped: true`. -/
structure StopResult where
  stopped : Bool
  frame : StackFrame
  deriving DecidableEq, Repr

/-- The observable outcome of running the `wait_for_stop` loop against a
finite trace of poll outcomes: it stops with a result after some number of
sleeps, re-raises an error after some number of sleeps, or has consumed the
whole trace and is still polling. -/
inductive WaitResult where
  | stoppedAt (delays : Nat) (res : StopResult)
  | raised (delays : Nat) (e : BridgeError)
  | pending (delays : Nat)
  deriving DecidableEq, Repr

/-- Account for one `setTimeout(pollMs)` sleep taken before the rest of the
loop ran. -/
def WaitResult.bump : WaitResult → WaitResult
  | .stoppedAt d r => .stoppedAt (d + 1) r
  | .raised d e => .raised (d + 1) e
  | .pending d => .pending (d + 1)

/-- `isNotStoppedError` from server.ts applied to an error thrown by
`dap.stack`: bridge-layer errors carry their `Error` message and no DAP
error body. -/
def isNotStoppedBridge : BridgeError → Bool
  | .rpc e => isNotStoppedError e
  | .sessionNotFound sessionId =>
    strContains ("Debug session not found: " ++ sessionId) "notStopped"
  | .noActiveSession => strContains "No active debug session" "notStopped"

/-- The `wait_for_stop` tool handler from server.ts, run against a finite
trace of outcomes of the 1-level `dap.stack` poll.  A poll that yields a
top frame ends the loop with `{stopped: true, frame}`; a poll that yields
no frame (a `notStopped` failure, or a success with an empty frame list)
sleeps and retries; any other failure is re-raised. -/
def waitForStopRun : List (Except BridgeError (List StackFrame)) → WaitResult
  | [] => .pending 0
  | outcome :: rest =>
    match outcome with
    | .ok frames =>
      match frames.head? with
      | some f => .stoppedAt 0 { stopped := true, frame := f }
      | none => (waitForStopRun rest).bump
    | .error e =>
      if isNotStoppedBridge e then (waitForStopRun rest).bump
      else .raised 0 e

/-- The zod default of the `pollMs` tool argument: `.default(300)`. -/
def resolvePollMs (pollMs : Option Int) : Int :=
  pollMs.getD 300

/-! ## HTTP transport (httpTransport.ts) -/

/-- `MAX_BODY_BYTES` from httpTransport.ts. -/
def MAX_BODY_BYTES : Nat := 2 * 1024 * 1024

/-- A parsed JSON document, kept abstract: the development only needs that
parsing either fails or yields some value. -/
inductive JsonValue where
  | null
  | val (s : String)
  deriving DecidableEq, Repr

/-- The ways `readJsonBody` can reject a body. -/
inductive BodyError where
  | payloadTooLarge
  | emptyBody
  | parseFailure
  deriving DecidableEq, Repr

/-- The `end` handler of `readJsonBody`: no received chunk rejects as an
empty body, otherwise the concatenated bytes are handed to `JSON.parse`
(an abstract `parse` primitive here). -/
def finishBody (parse : List Nat → Option JsonValue)
    (collected : List (List Nat)) : Except BodyError JsonValue :=
  if collected.isEmpty then .error .emptyBody
  else
    match parse collected.flatten with
    | some v => .ok v
    | none => .error .parseFailure

/-- The `data`-event loop of `readJsonBody`: bytes are counted as chunks
arrive and the read aborts with `PAYLOAD_TOO_LARGE` as soon as the running
size exceeds `MAX_BODY_BYTES`. -/
def readBodyGo (parse : List Nat → Option JsonValue) (size : Nat)
    (collected : List (List Nat)) : List (List Nat) → Except BodyError JsonValue
  | [] => finishBody parse collected
  | chunk :: rest =>
    if size + chunk.length > MAX_BODY_BYTES then .error .payloadTooLarge
    else readBodyGo parse (size + chunk.length) (collected ++ [chunk]) rest

/-- `readJsonBody` from httpTransport.ts, over the request's chunk
sequence. -/
def readJsonBody (parse : List Nat → Option JsonValue)
    (chunks : List (List Nat)) : Except BodyError JsonValue :=
  readBodyGo parse 0 [] chunks

/-- Total byte count of a chunk sequence. -/
def bodySize (chunks : List (List Nat)) : Nat :=
  (chunks.map List.length).sum

/-- The JSON-RPC error envelope written by the POST handler: HTTP status,
`error.code`, `error.message`, and the literal `id: null`. -/
structure ErrorEnvelope where
  status : Nat
  code : Int
  message : String
  idIsNull : Bool
  deriving DecidableEq, Repr

/-- The envelope construction of the POST handler: status 413 exactly for
the `PAYLOAD_TOO_LARGE` marker, else 400; the message is chosen from the
status; the code is always -32700 and the id always null. -/
def bodyErrorEnvelope (e : BodyError) : ErrorEnvelope :=
  let status : Nat := if e = BodyError.payloadTooLarge then 413 else 400
  { status := status
    code := -32700
    message := if status = 413 then "Payload too large" else "Parse error"
    idIsNull := true }

/-- The observable outcome of the POST path of the request handler. -/
inductive PostOutcome where
  | errorResponse (env : ErrorEnvelope)
  | dispatched (response : JsonValue)
  deriving DecidableEq, Repr

/-- The POST path of the request handler in httpTransport.ts: read and
parse the body within the byte budget; on failure answer with the error
envelope and return, otherwise hand the parsed body to the dispatch layer
(`server.connect` + `transport.handleRequest`, abstracted as `dispatch`). -/
def handlePost (parse : List Nat → Option JsonValue)
    (dispatch : JsonValue → JsonValue)
    (chunks : List (List Nat)) : PostOutcome :=
  match readJsonBody parse chunks with
  | .error e => .errorResponse (bodyErrorEnvelope e)
  | .ok body => .dispatched (dispatch body)

/-- The module-level mutable state of httpTransport.ts.  A created
`http.Server` object is identified by a fresh number; `nextServerId` counts
how many servers have ever been created, so an unchanged `nextServerId`
means no `createServer` call happened. -/
structure HttpServerState where
  runningServer : Option Nat
  serverUriPromise : Option String
  nextServerId : Nat
  deriving DecidableEq, Repr

/-- The endpoint URI the listen callback resolves with. -/
def mcpEndpointUri : String := "http://127.0.0.1:3098/mcp"

/-- `startHttpServer` from httpTransport.ts: return the cached URI promise
when present; otherwise create a server, record it in `runningServer`, and
either resolve with the endpoint URI (listen succeeded) or clear the cached
promise and reject (listen errored). -/
def startHttpServer (listenOk : Bool) (st : HttpServerState) :
    Except String String × HttpServerState :=
  match st.serverUriPromise with
  | some uri => (.ok uri, st)
  | none =>
    let created := { st with
      runningServer := some st.nextServerId
      nextServerId := st.nextServerId + 1 }
    if listenOk then
      (.ok mcpEndpointUri, { created with serverUriPromise := some mcpEndpointUri })
    else
      (.error "listen error", { created with serverUriPromise := none })

/-- `stopHttpServer` from httpTransport.ts: no-op without a running server;
otherwise close it, and only on successful close reset the cached server
reference and URI promise. -/
def stopHttpServer (closeOk : Bool) (st : HttpServerState) :
    Except String Unit × HttpServerState :=
  match st.runningServer with
  | none => (.ok (), st)
  | some _ =>
    if closeOk then
      (.ok (), { st with runningServer := none, serverUriPromise := none })
    else
      (.error "close error", st)

/-! ## Concrete sample data for witness evaluations -/

/-- A concrete PHP debug session handle. -/
def sampleSession : DebugSession := { id := "s0", name := "Listen for Xdebug", type := "php" }

/-- A world with no tracked and no active session. -/
def emptyWorld : DebugWorld := { registry := [], active := none }

/-- A world whose active session is not yet in the registry. -/
def untrackedActiveWorld : DebugWorld := { registry := [], active := some sampleSession }

/-- A world whose active session is tracked. -/
def trackedWorld : DebugWorld :=
  { registry := [("s0", sampleSession)], active := some sampleSession }

/-- A concrete top stack frame with id 7. -/
def sampleFrame : StackFrame := { id := 7, name := "main", line := 3 }

/-- A concrete reported thread. -/
def sampleThread : ThreadInfo := { id := 5, name := "main thread" }

/-- A concrete cheap scope. -/
def sampleScope : Scope := { name := "Locals", variablesReference := 11 }

/-- A concrete scope marked expensive. -/
def expensiveScope : Scope :=
  { name := "Superglobals", variablesReference := 12, expensive := some true }

/-- A concrete variable. -/
def sampleVariable : Variable := { name := "x", value := "1" }

/-- A DAP error carrying the `notStopped` marker in its message. -/
def notHaltedRpcError : RpcError := { message := "notStopped: thread is running" }

/-- A DAP error with no `notStopped` marker. -/
def hardRpcError : RpcError := { message := "connection lost" }

/-- The `notStopped` condition as seen by a tool handler. -/
def notHaltedB : BridgeError := .rpc notHaltedRpcError

/-- A non-`notStopped` failure as seen by a tool handler. -/
def hardB : BridgeError := .rpc hardRpcError

/-- A session whose every request succeeds with an empty array field. -/
def baseRpc : SessionRpc where
  threads := .ok (.arr [])
  stackTrace := fun _ => .ok (.arr [])
  scopes := fun _ => .ok (.arr [])
  «variables» := fun _ => .ok (.arr [])
  evaluate := fun _ => .ok { result := "" }
  setBreakpoints := fun _ => .ok (.arr [])
  setFunctionBreakpoints := fun _ => .ok (.arr [])
  setExceptionBreakpoints := fun _ => .ok (.arr [])

/-- A halted session: thread enumeration fails, the stack probe succeeds. -/
def stoppedProbeRpc : SessionRpc :=
  { baseRpc with
    threads := .error { message := "threads not supported" }
    stackTrace := fun _ => .ok (.arr [sampleFrame]) }

/-- A running session: one thread reported, the stack probe fails with the
`notStopped` condition. -/
def runningProbeRpc : SessionRpc :=
  { baseRpc with
    threads := .ok (.arr [sampleThread])
    stackTrace := fun _ => .error notHaltedRpcError }

/-- A session whose stack probe fails hard. -/
def brokenProbeRpc : SessionRpc :=
  { baseRpc with stackTrace := fun _ => .error hardRpcError }

/-- A session answering `scopes` with one scope and `variables` with one
variable, for exercising the templated frame-variables resource. -/
def scopedRpc : SessionRpc :=
  { baseRpc with
    scopes := fun _ => .ok (.arr [sampleScope])
    «variables» := fun _ => .ok (.arr [sampleVariable]) }

/-- A session reporting a top frame, a cheap and an expensive scope, and
one variable per scope, for exercising the snapshot tool. -/
def snapshotRpc : SessionRpc :=
  { baseRpc with
    stackTrace := fun _ => .ok (.arr [sampleFrame])
    scopes := fun _ => .ok (.arr [sampleScope, expensiveScope])
    «variables» := fun _ => .ok (.arr [sampleVariable]) }

/-- A session whose evaluate endpoint reports which frame id it was handed:
`"seven"` exactly when `frameId = 7` arrives. -/
def frameSevenRpc : SessionRpc :=
  { baseRpc with
    stackTrace := fun _ => .ok (.arr [sampleFrame])
    evaluate := fun a =>
      if a.frameId == some 7 then .ok { result := "seven" } else .ok { result := "other" } }

/-- A session with no frames whose evaluate endpoint reports whether the
frame id argument was left undefined. -/
def noFramesEvalRpc : SessionRpc :=
  { baseRpc with
    stackTrace := fun _ => .ok (.arr [])
    evaluate := fun a =>
      if a.frameId == none then .ok { result := "global" } else .ok { result := "other" } }

/-- A session whose every response is missing its expected array field. -/
def absentFieldRpc : SessionRpc where
  threads := .ok .absent
  stackTrace := fun _ => .ok .absent
  scopes := fun _ => .ok .absent
  «variables» := fun _ => .ok .absent
  evaluate := fun _ => .ok { result := "" }
  setBreakpoints := fun _ => .ok .absent
  setFunctionBreakpoints := fun _ => .ok .absent
  setExceptionBreakpoints := fun _ => .ok .absent

/-- A session whose every response holds a non-array value at its expected
array field. -/
def nonArrayFieldRpc : SessionRpc where
  threads := .ok .nonArray
  stackTrace := fun _ => .ok .nonArray
  scopes := fun _ => .ok .nonArray
  «variables» := fun _ => .ok .nonArray
  evaluate := fun _ => .ok { result := "" }
  setBreakpoints := fun _ => .ok .nonArray
  setFunctionBreakpoints := fun _ => .ok .nonArray
  setExceptionBreakpoints := fun _ => .ok .nonArray

/-- A single-chunk body of exactly `MAX_BODY_BYTES` zero bytes. -/
def exactLimitBody : List (List Nat) := [List.replicate MAX_BODY_BYTES 0]

/-- A single-chunk body one byte over the limit. -/
def oversizedBody : List (List Nat) := [List.replicate (MAX_BODY_BYTES + 1) 0]

/-- A parse primitive accepting every body. -/
def acceptAllParse : List Nat → Option JsonValue := fun _ => some JsonValue.null

/-- A parse primitive rejecting every body (every body is malformed). -/
def rejectAllParse : List Nat → Option JsonValue := fun _ => none

/-- A dispatch layer echoing the parsed body. -/
def echoDispatch : JsonValue → JsonValue := fun v => v

/-- A dispatch layer answering a fixed document. -/
def constDispatch : JsonValue → JsonValue := fun _ => JsonValue.val "handled"

/-- The transport state before any server was started. -/
def httpIdleState : HttpServerState :=
  { runningServer := none, serverUriPromise := none, nextServerId := 0 }

/-! ## Theorems -/

/-- Claim C2 counterexample: in a world whose active session is not yet
tracked, resolving with no explicit id returns the active session's handle
while leaving the registry untouched — the claimed self-healing upsert does
not happen during resolution. -/
theorem getSession_leaves_active_untracked :
    getSessionStep untrackedActiveWorld none = (Except.ok sampleSession, untrackedActiveWorld) ∧
    registryHas (getSessionStep untrackedActiveWorld none).2.registry sampleSession.id = false :=
  ⟨rfl, rfl⟩

/-- Claim C2 (amended): resolution with an explicit id absent from the
registry fails with `SessionNotFound`; with no id and no active session it
fails with `NoActiveSession`; with no id and an active session it returns
that handle without modifying the registry (even when the session is
untracked); the self-healing upsert of an untracked active session is
performed by `listSessions` instead, which tracks it before listing. -/
theorem session_resolution_spec (w : DebugWorld) (sessionId : String) (s : DebugSession) :
    (registryGet w.registry sessionId = none →
      getSession w (some sessionId) = .error (.sessionNotFound sessionId)) ∧
    (w.active = none → getSession w none = .error .noActiveSession) ∧
    (w.active = some s → getSessionStep w none = (.ok s, w)) ∧
    (w.active = some s → registryHas (listSessionsOp w).2.registry s.id = true) ∧
    (w.active = some s → registryHas w.registry s.id = false →
      (listSessionsOp w).2.registry = trackSession w.registry s) := by
  refine ⟨?_, ?_, ?_, ?_, ?_⟩
  · intro h
    simp [getSession, h]
  · intro h
    simp [getSession, h]
  · intro h
    simp [getSessionStep, getSession, h]
  · intro h
    unfold listSessionsOp
    rw [h]
    cases hr : registryHas w.registry s.id with
    | true => simp [hr]
    | false =>
      simp only [hr, Bool.false_eq_true, if_false]
      unfold trackSession registrySet
      rw [hr]
      simp [registryHas, List.any_append]
  · intro h hr
    unfold listSessionsOp
    rw [h]
    simp [hr]

/-- Claim C2 witness: the amended resolution behaviour evaluated at
concrete worlds. -/
theorem session_resolution_spec_witness :
    getSession untrackedActiveWorld (some "missing") =
      .error (.sessionNotFound "missing") ∧
    getSession emptyWorld none = .error .noActiveSession ∧
    getSessionStep untrackedActiveWorld none = (.ok sampleSession, untrackedActiveWorld) ∧
    registryHas (listSessionsOp untrackedActiveWorld).2.registry sampleSession.id = true ∧
    (listSessionsOp untrackedActiveWorld).2.registry =
      trackSession untrackedActiveWorld.registry sampleSession :=
  ⟨(session_resolution_spec untrackedActiveWorld "missing" sampleSession).1 rfl,
   (session_resolution_spec emptyWorld "missing" sampleSession).2.1 rfl,
   (session_resolution_spec untrackedActiveWorld "missing" sampleSession).2.2.1 rfl,
   (session_resolution_spec untrackedActiveWorld "missing" sampleSession).2.2.2.1 rfl,
   (session_resolution_spec untrackedActiveWorld "missing" sampleSession).2.2.2.2 rfl rfl⟩

/-- Claim C8: for every world, RPC behaviour, session selector and file,
`clearFileBreakpoints(file)` is extensionally `setFileBreakpoints(file, [])`:
the same result, produced by the same `setBreakpoints` RPC carrying an
empty breakpoint list and `sourceModified = false`. -/
theorem clear_breakpoints_is_set_empty (w : DebugWorld)
    (rpcOf : String → SessionRpc) (sessionId : Option String) (file : String) :
    clearFileBreakpointsOp w rpcOf { sessionId := sessionId, file := file } =
      setFileBreakpointsOp w rpcOf
        { sessionId := sessionId, file := file, breakpoints := [] } ∧
    (∀ s, getSession w sessionId = .ok s →
      clearFileBreakpointsOp w rpcOf { sessionId := sessionId, file := file } =
        match (rpcOf s.id).setBreakpoints
            { sourcePath := file, breakpoints := [], sourceModified := false } with
        | .ok v => .ok v.toList
        | .error e => .error (.rpc e)) := by
  refine ⟨rfl, ?_⟩
  intro s hs
  simp [clearFileBreakpointsOp, setFileBreakpointsOp, hs]

/-- Claim C8 witness: the equivalence evaluated at a concrete world and a
concrete session. -/
theorem clear_breakpoints_is_set_empty_witness :
    clearFileBreakpointsOp trackedWorld (fun _ => baseRpc)
        { sessionId := none, file := "/srv/app/index.php" } =
      setFileBreakpointsOp trackedWorld (fun _ => baseRpc)
        { sessionId := none, file := "/srv/app/index.php", breakpoints := [] } ∧
    clearFileBreakpointsOp trackedWorld (fun _ => baseRpc)
        { sessionId := none, file := "/srv/app/index.php" } = .ok [] := by
  have h := clear_breakpoints_is_set_empty trackedWorld (fun _ => baseRpc)
    none "/srv/app/index.php"
  exact ⟨h.1, (h.2 sampleSession rfl).trans rfl⟩

/-- A bumped outcome that stopped must have stopped before the bump, with
the same result. -/
theorem bump_eq_stoppedAt (x : WaitResult) (d : Nat) (r : StopResult)
    (h : x.bump = .stoppedAt d r) : ∃ d0, x = .stoppedAt d0 r := by
  cases x with
  | stoppedAt d0 r0 =>
    simp only [WaitResult.bump, WaitResult.stoppedAt.injEq] at h
    exact ⟨d0, by rw [h.2]⟩
  | raised d0 e0 => simp [WaitResult.bump] at h
  | pending d0 => simp [WaitResult.bump] at h

/-- Every result the wait-for-stop loop terminates with carries
`stopped = true`: the handler builds that literal. -/
theorem waitForStopRun_stopped_true :
    ∀ (tr : List (Except BridgeError (List StackFrame))) (d : Nat) (r : StopResult),
      waitForStopRun tr = .stoppedAt d r → r.stopped = true := by
  intro tr
  induction tr with
  | nil =>
    intro d r h
    simp [waitForStopRun] at h
  | cons o rest ih =>
    intro d r h
    match o with
    | .ok frames =>
      cases hh : frames.head? with
      | some f =>
        rw [waitForStopRun, hh] at h
        simp only [WaitResult.stoppedAt.injEq] at h
        rw [← h.2]
      | none =>
        rw [waitForStopRun, hh] at h
        obtain ⟨d0, h0⟩ := bump_eq_stoppedAt _ _ _ h
        exact ih d0 r h0
    | .error e =>
      rw [waitForStopRun] at h
      by_cases he : isNotStoppedBridge e = true
      · rw [if_pos he] at h
        obtain ⟨d0, h0⟩ := bump_eq_stoppedAt _ _ _ h
        exact ih d0 r h0
      · rw [if_neg he] at h
        simp at h

/-- Claim C1 counterexample: a poll whose 1-level stack fetch succeeds with
an empty frame list does not terminate the loop and does not return
`{stopped: true, frame: none}` — the loop sleeps and retries, exactly as it
does for `NotHalted`, and only a later poll that reports a frame ends it. -/
theorem wait_for_stop_empty_success_retries :
    waitForStopRun [Except.ok []] = WaitResult.pending 1 ∧
    waitForStopRun [Except.ok [], Except.ok [sampleFrame]] =
      WaitResult.stoppedAt 1 { stopped := true, frame := sampleFrame } :=
  ⟨rfl, rfl⟩

/-- Claim C1 (amended): for every run of the `wait_for_stop` poller, a poll
iteration whose 1-level stack fetch succeeds with at least one frame
terminates the loop and returns `{stopped: true, frame: top frame}`; a
successful fetch with no frames is treated like the `NotHalted` condition:
a sleep of `pollMs` (default 300 ms) followed by a retry; any other failure
propagates immediately and ends the poll; `wait_for_stop` never returns
`{stopped: false}`; and with a poll outcome sequence NotHalted, NotHalted,
then a frame, it returns `{stopped: true, frame: that frame}` after exactly
two poll delays. -/
theorem wait_for_stop_spec (tr : List (Except BridgeError (List StackFrame)))
    (f : StackFrame) (fs : List StackFrame) (e : BridgeError) :
    (waitForStopRun (Except.ok (f :: fs) :: tr) =
      .stoppedAt 0 { stopped := true, frame := f }) ∧
    (waitForStopRun (Except.ok [] :: tr) = (waitForStopRun tr).bump) ∧
    (isNotStoppedBridge e = true →
      waitForStopRun (Except.error e :: tr) = (waitForStopRun tr).bump) ∧
    (isNotStoppedBridge e = false →
      waitForStopRun (Except.error e :: tr) = .raised 0 e) ∧
    (∀ d r, waitForStopRun tr = .stoppedAt d r → r.stopped = true) ∧
    (isNotStoppedBridge e = true →
      waitForStopRun [Except.error e, Except.error e, Except.ok (f :: fs)] =
        .stoppedAt 2 { stopped := true, frame := f }) ∧
    resolvePollMs none = 300 := by
  refine ⟨rfl, rfl, ?_, ?_, waitForStopRun_stopped_true tr, ?_, rfl⟩
  · intro he
    rw [waitForStopRun, if_pos he]
  · intro he
    rw [waitForStopRun, if_neg (by rw [he]; exact Bool.false_ne_true)]
  · intro he
    rw [waitForStopRun, if_pos he, waitForStopRun, if_pos he, waitForStopRun]
    rfl

/-- Claim C1 witness: the amended poller behaviour evaluated on a concrete
trace of two `notStopped` failures followed by a frame, and on a concrete
hard failure. -/
theorem wait_for_stop_spec_witness :
    waitForStopRun [Except.error notHaltedB, Except.error notHaltedB,
        Except.ok [sampleFrame]] =
      .stoppedAt 2 { stopped := true, frame := sampleFrame } ∧
    waitForStopRun [Except.error hardB] = .raised 0 hardB ∧
    resolvePollMs none = 300 := by
  have h := wait_for_stop_spec [] sampleFrame [] notHaltedB
  have h2 := wait_for_stop_spec [] sampleFrame [] hardB
  refine ⟨h.2.2.2.2.2.1 (by decide), ?_, h.2.2.2.2.2.2⟩
  have := h2.2.2.2.1 (by decide)
  simpa using this

/-- The chunk loop rejects with `PAYLOAD_TOO_LARGE` exactly when the total
byte count crosses the budget, whatever the parse primitive and whatever
was collected so far. -/
theorem readBodyGo_oversize (parse : List Nat → Option JsonValue) :
    ∀ (chunks : List (List Nat)) (size : Nat) (collected : List (List Nat)),
      size ≤ MAX_BODY_BYTES → size + bodySize chunks > MAX_BODY_BYTES →
      readBodyGo parse size collected chunks = .error .payloadTooLarge := by
  intro chunks
  induction chunks with
  | nil =>
    intro size collected hle hgt
    simp [bodySize] at hgt
    omega
  | cons c rest ih =>
    intro size collected hle hgt
    rw [readBodyGo]
    by_cases hc : size + c.length > MAX_BODY_BYTES
    · rw [if_pos hc]
    · rw [if_neg hc]
      refine ih (size + c.length) (collected ++ [c]) (by omega) ?_
      simp [bodySize] at hgt ⊢
      omega

/-- Within the byte budget the chunk loop collects everything and hands the
concatenation to the `end` handler. -/
theorem readBodyGo_within (parse : List Nat → Option JsonValue) :
    ∀ (chunks : List (List Nat)) (size : Nat) (collected : List (List Nat)),
      size + bodySize chunks ≤ MAX_BODY_BYTES →
      readBodyGo parse size collected chunks = finishBody parse (collected ++ chunks) := by
  intro chunks
  induction chunks with
  | nil =>
    intro size collected _
    simp [readBodyGo]
  | cons c rest ih =>
    intro size collected hle
    have hc : ¬ size + c.length > MAX_BODY_BYTES := by
      simp [bodySize] at hle
      omega
    rw [readBodyGo, if_neg hc, ih (size + c.length) (collected ++ [c])
      (by simp [bodySize] at hle ⊢; omega)]
    simp

/-- Claim C3: a POST body strictly over 2 MiB is rejected, before any
parsing or dispatch, with HTTP 413 and the envelope
`{code: -32700, message: "Payload too large", id: null}`; a body of exactly
2 MiB (or less) that parses is accepted and dispatched; an empty body or a
malformed-JSON body yields HTTP 400 with
`{code: -32700, message: "Parse error", id: null}`, also before dispatch. -/
theorem post_body_limit_spec (parse parse2 : List Nat → Option JsonValue)
    (dispatch dispatch2 : JsonValue → JsonValue) (chunks : List (List Nat))
    (v : JsonValue) :
    (bodySize chunks > MAX_BODY_BYTES →
      readJsonBody parse chunks = .error .payloadTooLarge ∧
      handlePost parse dispatch chunks =
        .errorResponse
          { status := 413, code := -32700, message := "Payload too large", idIsNull := true } ∧
      handlePost parse dispatch chunks = handlePost parse2 dispatch2 chunks) ∧
    (bodySize chunks ≤ MAX_BODY_BYTES → chunks ≠ [] → parse chunks.flatten = some v →
      readJsonBody parse chunks = .ok v ∧
      handlePost parse dispatch chunks = .dispatched (dispatch v)) ∧
    (handlePost parse dispatch [] =
      .errorResponse
        { status := 400, code := -32700, message := "Parse error", idIsNull := true } ∧
      handlePost parse dispatch [] = handlePost parse dispatch2 []) ∧
    (bodySize chunks ≤ MAX_BODY_BYTES → chunks ≠ [] → parse chunks.flatten = none →
      handlePost parse dispatch chunks =
        .errorResponse
          { status := 400, code := -32700, message := "Parse error", idIsNull := true } ∧
      handlePost parse dispatch chunks = handlePost parse dispatch2 chunks) := by
  refine ⟨?_, ?_, ?_, ?_⟩
  · intro h
    have r1 : readJsonBody parse chunks = .error .payloadTooLarge :=
      readBodyGo_oversize parse chunks 0 [] (Nat.zero_le _) (by simpa using h)
    have r2 : readJsonBody parse2 chunks = .error .payloadTooLarge :=
      readBodyGo_oversize parse2 chunks 0 [] (Nat.zero_le _) (by simpa using h)
    refine ⟨r1, ?_, ?_⟩
    · rw [handlePost, r1]
      rfl
    · rw [handlePost, r1, handlePost, r2]
  · intro hle hne hp
    have r : readJsonBody parse chunks = .ok v := by
      rw [readJsonBody, readBodyGo_within parse chunks 0 [] (by simpa using hle)]
      rw [List.nil_append, finishBody, hp]
      cases chunks with
      | nil => exact absurd rfl hne
      | cons c rest => rfl
    exact ⟨r, by rw [handlePost, r]⟩
  · constructor
    · rfl
    · rfl
  · intro hle hne hp
    have r : readJsonBody parse chunks = .error .parseFailure := by
      rw [readJsonBody, readBodyGo_within parse chunks 0 [] (by simpa using hle)]
      rw [List.nil_append, finishBody, hp]
      cases chunks with
      | nil => exact absurd rfl hne
      | cons c rest => rfl
    exact ⟨by rw [handlePost, r]; rfl, by rw [handlePost, r, handlePost, r]⟩

/-- Claim C3 witness: the boundary evaluated concretely — 2 MiB + 1 bytes
rejected with the 413 envelope, exactly 2 MiB accepted, a malformed
1-byte body and the empty body rejected with the 400 envelope. -/
theorem post_body_limit_spec_witness :
    handlePost acceptAllParse constDispatch oversizedBody =
      .errorResponse
        { status := 413, code := -32700, message := "Payload too large", idIsNull := true } ∧
    readJsonBody acceptAllParse exactLimitBody = .ok JsonValue.null ∧
    handlePost rejectAllParse constDispatch [[123]] =
      .errorResponse
        { status := 400, code := -32700, message := "Parse error", idIsNull := true } ∧
    handlePost acceptAllParse constDispatch [] =
      .errorResponse
        { status := 400, code := -32700, message := "Parse error", idIsNull := true } := by
  have hover : bodySize oversizedBody > MAX_BODY_BYTES := by
    simp [bodySize, oversizedBody]
  have hexact : bodySize exactLimitBody ≤ MAX_BODY_BYTES := by
    simp [bodySize, exactLimitBody]
  refine ⟨?_, ?_, ?_, ?_⟩
  · exact ((post_body_limit_spec acceptAllParse acceptAllParse constDispatch constDispatch
      oversizedBody JsonValue.null).1 hover).2.1
  · exact ((post_body_limit_spec acceptAllParse acceptAllParse constDispatch constDispatch
      exactLimitBody JsonValue.null).2.1 hexact (by simp [exactLimitBody]) rfl).1
  · exact ((post_body_limit_spec rejectAllParse rejectAllParse constDispatch constDispatch
      [[123]] JsonValue.null).2.2.2 (by simp [bodySize, MAX_BODY_BYTES]) (by simp) rfl).1
  · exact ((post_body_limit_spec acceptAllParse acceptAllParse constDispatch constDispatch
      [] JsonValue.null).2.2.1).1

/-- Claim C4: for every status call on a resolved session — a failed thread
enumeration yields an empty thread list without propagating; the probing
thread id is the first reported thread's id, defaulting to 1; the result is
`stopped = true` iff the 1-level stackTrace probe succeeds; a probe failure
recognized as NotHalted yields `stopped = false` with no error raised; any
other probe failure propagates. -/
theorem status_probe_spec (w : DebugWorld) (rpcOf : String → SessionRpc)
    (sessionId : Option String) (s : DebugSession)
    (hs : getSession w sessionId = .ok s) :
    (∀ e, (rpcOf s.id).threads = .error e → safeThreads (rpcOf s.id) = []) ∧
    (∀ t rest, safeThreads (rpcOf s.id) = t :: rest → probeThreadId (rpcOf s.id) = t.id) ∧
    (safeThreads (rpcOf s.id) = [] → probeThreadId (rpcOf s.id) = 1) ∧
    (∀ resp,
      (rpcOf s.id).stackTrace
          { threadId := probeThreadId (rpcOf s.id), startFrame := 0, levels := some 1 } =
        .ok resp →
      statusOp w rpcOf sessionId =
        .ok { session := describeSession s, stopped := true
              threadId := probeThreadId (rpcOf s.id), threads := safeThreads (rpcOf s.id) }) ∧
    (∀ e,
      (rpcOf s.id).stackTrace
          { threadId := probeThreadId (rpcOf s.id), startFrame := 0, levels := some 1 } =
        .error e →
      isNotStoppedError e = true →
      statusOp w rpcOf sessionId =
        .ok { session := describeSession s, stopped := false
              threadId := probeThreadId (rpcOf s.id), threads := safeThreads (rpcOf s.id) }) ∧
    (∀ e,
      (rpcOf s.id).stackTrace
          { threadId := probeThreadId (rpcOf s.id), startFrame := 0, levels := some 1 } =
        .error e →
      isNotStoppedError e = false →
      statusOp w rpcOf sessionId = .error (.rpc e)) ∧
    (∀ st, statusOp w rpcOf sessionId = .ok st →
      (st.stopped = true ↔
        ∃ resp,
          (rpcOf s.id).stackTrace
              { threadId := probeThreadId (rpcOf s.id), startFrame := 0, levels := some 1 } =
            .ok resp)) := by
  refine ⟨?_, ?_, ?_, ?_, ?_, ?_, ?_⟩
  · intro e he
    simp [safeThreads, he]
  · intro t rest ht
    simp [probeThreadId, ht]
  · intro ht
    simp [probeThreadId, ht]
  · intro resp hp
    simp only [probeThreadId] at hp
    simp [statusOp, hs, probeThreadId, hp]
  · intro e hp hns
    simp only [probeThreadId] at hp
    simp [statusOp, hs, probeThreadId, hp, hns]
  · intro e hp hns
    simp only [probeThreadId] at hp
    simp [statusOp, hs, probeThreadId, hp, hns]
  · intro st hst
    simp only [statusOp, hs] at hst
    simp only [probeThreadId]
    cases hp : (rpcOf s.id).stackTrace
        { threadId := (Option.map ThreadInfo.id (safeThreads (rpcOf s.id)).head?).getD 1
          startFrame := 0, levels := some 1 } with
    | ok resp =>
      rw [hp] at hst
      simp only [Except.ok.injEq] at hst
      refine ⟨fun _ => ⟨resp, rfl⟩, fun _ => ?_⟩
      rw [← hst]
    | error e =>
      rw [hp] at hst
      by_cases hns : isNotStoppedError e = true
      · simp only [hns, if_true, Except.ok.injEq] at hst
        refine ⟨fun hc => ?_, fun hex => ?_⟩
        · rw [← hst] at hc
          simp at hc
        · obtain ⟨r, hr⟩ := hex
          simp at hr
      · simp only [hns, if_false, reduceCtorEq] at hst

/-- Claim C4 witness: the probe evaluated at three concrete sessions — a
halted session whose thread enumeration fails, a running session with one
thread and a `notStopped` probe, and a session whose probe fails hard. -/
theorem status_probe_spec_witness :
    statusOp trackedWorld (fun _ => stoppedProbeRpc) none =
      .ok { session := describeSession sampleSession, stopped := true
            threadId := 1, threads := [] } ∧
    statusOp trackedWorld (fun _ => runningProbeRpc) none =
      .ok { session := describeSession sampleSession, stopped := false
            threadId := 5, threads := [sampleThread] } ∧
    statusOp trackedWorld (fun _ => brokenProbeRpc) none =
      .error (.rpc hardRpcError) := by
  have h1 := status_probe_spec trackedWorld (fun _ => stoppedProbeRpc) none sampleSession rfl
  have h2 := status_probe_spec trackedWorld (fun _ => runningProbeRpc) none sampleSession rfl
  have h3 := status_probe_spec trackedWorld (fun _ => brokenProbeRpc) none sampleSession rfl
  refine ⟨?_, ?_, ?_⟩
  · exact (h1.2.2.2.1 (FieldVal.arr [sampleFrame]) rfl).trans (by rfl)
  · exact (h2.2.2.2.2.1 notHaltedRpcError rfl (by decide)).trans (by rfl)
  · exact h3.2.2.2.2.2.1 hardRpcError rfl (by decide)

/-- Claim C5 counterexample: a negative frame id — the JS conversion
`Number("-5") = -5` is not `NaN` — is not rejected: the handler issues the
scopes RPC and returns that RPC's data, and changing the external scopes
response changes the result, so the RPC is issued. -/
theorem frame_variables_accepts_negative :
    frameVariablesResource trackedWorld (fun _ => scopedRpc) (JsNum.val (-5)) =
      .ok [sampleVariable] ∧
    frameVariablesResource trackedWorld (fun _ => scopedRpc) (JsNum.val (-5)) ≠
      .error .invalidArguments ∧
    frameVariablesResource trackedWorld (fun _ => baseRpc) (JsNum.val (-5)) = .ok [] := by
  refine ⟨rfl, ?_, rfl⟩
  intro h
  simp [frameVariablesResource, scopesOp, getSession, trackedWorld, registryGet,
    scopedRpc, baseRpc, variablesOp, FieldVal.toList] at h

/-- Claim C5 (amended): the templated frame-variables resource rejects its
path parameter with `InvalidArguments`, before any RPC, exactly when the JS
`Number` conversion of the parameter is `NaN` (every non-numeric string);
every numeric value — including negative and non-integer ones — is
accepted and the scopes RPC is issued with it: the handler's outcome is the
RPC's outcome. -/
theorem frame_variables_nan_guard (w : DebugWorld)
    (rpcOf rpcOf2 : String → SessionRpc) (n : Int) (s : DebugSession)
    (hs : getSession w none = .ok s) :
    (frameVariablesResource w rpcOf JsNum.nan = .error .invalidArguments) ∧
    (frameVariablesResource w rpcOf JsNum.nan =
      frameVariablesResource w rpcOf2 JsNum.nan) ∧
    (∀ e, (rpcOf s.id).scopes n = .error e →
      frameVariablesResource w rpcOf (JsNum.val n) = .error (.bridge (.rpc e))) ∧
    ((rpcOf s.id).scopes n = .ok (.arr []) →
      frameVariablesResource w rpcOf (JsNum.val n) = .ok []) ∧
    (∀ sc rest vres, (rpcOf s.id).scopes n = .ok (.arr (sc :: rest)) →
      (rpcOf s.id).variables { variablesReference := sc.variablesReference } = .ok vres →
      frameVariablesResource w rpcOf (JsNum.val n) = .ok vres.toList) := by
  refine ⟨rfl, rfl, ?_, ?_, ?_⟩
  · intro e he
    simp [frameVariablesResource, scopesOp, hs, he]
  · intro he
    simp [frameVariablesResource, scopesOp, hs, he, FieldVal.toList]
  · intro sc rest vres hsc hv
    simp [frameVariablesResource, scopesOp, hs, hsc, FieldVal.toList, variablesOp, hv]

/-- Claim C5 witness: the `NaN` rejection and the pass-through of a
concrete (negative) numeric id evaluated against a concrete session. -/
theorem frame_variables_nan_guard_witness :
    frameVariablesResource trackedWorld (fun _ => scopedRpc) JsNum.nan =
      .error .invalidArguments ∧
    frameVariablesResource trackedWorld (fun _ => scopedRpc) (JsNum.val (-5)) =
      .ok [sampleVariable] := by
  have h := frame_variables_nan_guard trackedWorld (fun _ => scopedRpc)
    (fun _ => baseRpc) (-5) sampleSession rfl
  refine ⟨h.1, ?_⟩
  exact (h.2.2.2.2 sampleScope [] (FieldVal.arr [sampleVariable]) rfl rfl).trans rfl

/-- `stack` depends on the external session only through its `stackTrace`
endpoint. -/
theorem stackOp_congr (w : DebugWorld) (rpcOf rpcOf2 : String → SessionRpc)
    (o : StackOptions)
    (hsame : ∀ sid, (rpcOf sid).stackTrace = (rpcOf2 sid).stackTrace) :
    stackOp w rpcOf o = stackOp w rpcOf2 o := by
  simp only [stackOp, hsame]

/-- The snapshot scope loop visits exactly the non-skipped scopes, in
order, pairing each with its variables. -/
theorem snapshotFetch_filter (w : DebugWorld) (rpcOf : String → SessionRpc)
    (sessionId : Option String) (includeExpensive : Option Bool)
    (maxVariables : Option Int) (s : DebugSession)
    (hs : getSession w sessionId = .ok s) (vOf : Scope → FieldVal Variable) :
    ∀ scopeList : List Scope,
      (∀ sc ∈ scopeList,
        (rpcOf s.id).variables
            { variablesReference := sc.variablesReference, count := maxVariables } =
          .ok (vOf sc)) →
      snapshotFetch w rpcOf sessionId includeExpensive maxVariables scopeList =
        .ok ((scopeList.filter
            (fun sc => !(sc.expensive == some true && !(includeExpensive == some true)))).map
          (fun sc => { scope := sc, «variables» := (vOf sc).toList })) := by
  intro scopeList
  induction scopeList with
  | nil => intro _; rfl
  | cons sc rest ih =>
    intro hv
    have ihr := ih (fun x hx => hv x (List.mem_cons_of_mem _ hx))
    have hv0 := hv sc (List.mem_cons_self _ _)
    rw [snapshotFetch]
    cases he : (sc.expensive == some true) <;> cases hi : (includeExpensive == some true) <;>
      simp [he, hi, variablesOp, hs, hv0, ihr, List.filter_cons]

/-- Claim C6: the snapshot tool fetches one stack level from frame 0;
with no frame it returns `{frame: none, scopes: []}` without touching the
scopes/variables endpoints; otherwise it returns the frame together with
one `{scope, variables}` pair, in scope order, for exactly the scopes that
are not marked expensive (or are marked expensive while `includeExpensive`
is true), each fetched with `count = maxVariables`. -/
theorem snapshot_tool_spec (w : DebugWorld) (rpcOf rpcOf2 : String → SessionRpc)
    (sessionId : Option String) (threadId : Option Int)
    (includeExpensive : Option Bool) (maxVariables : Option Int)
    (s : DebugSession) (hs : getSession w sessionId = .ok s)
    (vOf : Scope → FieldVal Variable) :
    (stackOp w rpcOf
        { sessionId := sessionId, threadId := threadId, startFrame := some 0, levels := some 1 } =
      .ok [] →
      snapshotTool w rpcOf sessionId threadId includeExpensive maxVariables =
        .ok { frame := none, scopes := [] } ∧
      ((∀ sid, (rpcOf sid).stackTrace = (rpcOf2 sid).stackTrace) →
        snapshotTool w rpcOf sessionId threadId includeExpensive maxVariables =
          snapshotTool w rpcOf2 sessionId threadId includeExpensive maxVariables)) ∧
    (∀ f rest scopeList,
      stackOp w rpcOf
          { sessionId := sessionId, threadId := threadId, startFrame := some 0, levels := some 1 } =
        .ok (f :: rest) →
      scopesOp w rpcOf f.id sessionId = .ok scopeList →
      (∀ sc ∈ scopeList,
        (rpcOf s.id).variables
            { variablesReference := sc.variablesReference, count := maxVariables } =
          .ok (vOf sc)) →
      snapshotTool w rpcOf sessionId threadId includeExpensive maxVariables =
        .ok { frame := some f
              scopes := (scopeList.filter
                  (fun sc =>
                    !(sc.expensive == some true && !(includeExpensive == some true)))).map
                (fun sc => { scope := sc, «variables» := (vOf sc).toList }) }) := by
  constructor
  · intro h0
    constructor
    · simp [snapshotTool, h0]
    · intro hsame
      have h2 : stackOp w rpcOf2
          { sessionId := sessionId, threadId := threadId
            startFrame := some 0, levels := some 1 } = .ok [] :=
        (stackOp_congr w rpcOf rpcOf2 _ hsame).symm.trans h0
      simp [snapshotTool, h0, h2]
  · intro f rest scopeList hstack hscopes hv
    have hfetch := snapshotFetch_filter w rpcOf sessionId includeExpensive maxVariables
      s hs vOf scopeList hv
    simp [snapshotTool, hstack, hscopes, hfetch]

/-- Claim C6 witness: the snapshot evaluated against a session reporting a
frame, one cheap and one expensive scope, and one variable per scope: the
expensive scope is skipped when `includeExpensive` is unset and kept when
it is true; with no frame the result is `{frame: none, scopes: []}`. -/
theorem snapshot_tool_spec_witness :
    snapshotTool trackedWorld (fun _ => snapshotRpc) none none none none =
      .ok { frame := some sampleFrame
            scopes := [{ scope := sampleScope, «variables» := [sampleVariable] }] } ∧
    snapshotTool trackedWorld (fun _ => snapshotRpc) none none (some true) none =
      .ok { frame := some sampleFrame
            scopes := [{ scope := sampleScope, «variables» := [sampleVariable] },
                       { scope := expensiveScope, «variables» := [sampleVariable] }] } ∧
    snapshotTool trackedWorld (fun _ => baseRpc) none none none none =
      .ok { frame := none, scopes := [] } := by
  have h1 := snapshot_tool_spec trackedWorld (fun _ => snapshotRpc) (fun _ => baseRpc)
    none none none none sampleSession rfl (fun _ => FieldVal.arr [sampleVariable])
  have h2 := snapshot_tool_spec trackedWorld (fun _ => snapshotRpc) (fun _ => baseRpc)
    none none (some true) none sampleSession rfl (fun _ => FieldVal.arr [sampleVariable])
  have h3 := snapshot_tool_spec trackedWorld (fun _ => baseRpc) (fun _ => snapshotRpc)
    none none none none sampleSession rfl (fun _ => FieldVal.arr [sampleVariable])
  refine ⟨?_, ?_, ?_⟩
  · exact (h1.2 sampleFrame [] [sampleScope, expensiveScope] rfl rfl
      (fun sc _ => rfl)).trans (by rfl)
  · exact (h2.2 sampleFrame [] [sampleScope, expensiveScope] rfl rfl
      (fun sc _ => rfl)).trans (by rfl)
  · exact (h3.1 rfl).1

/-- `evaluate` depends on the external session only through its `evaluate`
endpoint. -/
theorem evaluateOp_congr (w : DebugWorld) (rpcOf rpcOf2 : String → SessionRpc)
    (o : EvaluateOptions)
    (hsame : ∀ sid, (rpcOf sid).evaluate = (rpcOf2 sid).evaluate) :
    evaluateOp w rpcOf o = evaluateOp w rpcOf2 o := by
  simp only [evaluateOp, hsame]

/-- Claim C7: `evaluate_expr` without a `frameId` first fetches one stack
level from frame 0 and issues its evaluate RPC with the top frame's id —
an undefined frame id when the debuggee reports no frames; with a
(schema-valid, hence positive) `frameId` supplied, no preliminary stack
fetch is performed and the RPC carries that id. -/
theorem evaluate_expr_frame_resolution (w : DebugWorld)
    (rpcOf rpcOf2 : String → SessionRpc) (sessionId : Option String)
    (expr : String) (context : Option EvalContext) (threadId : Option Int)
    (n : Int) :
    (0 < n →
      evaluateExprTool w rpcOf sessionId expr (some n) context threadId =
        evaluateOp w rpcOf
          { sessionId := sessionId, expression := expr
            frameId := some n, context := context } ∧
      ((∀ sid, (rpcOf sid).evaluate = (rpcOf2 sid).evaluate) →
        evaluateExprTool w rpcOf sessionId expr (some n) context threadId =
          evaluateExprTool w rpcOf2 sessionId expr (some n) context threadId)) ∧
    (∀ frames,
      stackOp w rpcOf
          { sessionId := sessionId, threadId := threadId
            startFrame := some 0, levels := some 1 } = .ok frames →
      evaluateExprTool w rpcOf sessionId expr none context threadId =
        evaluateOp w rpcOf
          { sessionId := sessionId, expression := expr
            frameId := (frames.head?).map StackFrame.id, context := context }) ∧
    (∀ e,
      stackOp w rpcOf
          { sessionId := sessionId, threadId := threadId
            startFrame := some 0, levels := some 1 } = .error e →
      evaluateExprTool w rpcOf sessionId expr none context threadId = .error e) := by
  refine ⟨?_, ?_, ?_⟩
  · intro hn
    have hf : jsFalsyNum (some n) = false := by
      simp only [jsFalsyNum, beq_eq_false_iff_ne, ne_eq]
      omega
    constructor
    · simp [evaluateExprTool, hf]
    · intro hsame
      have hc := evaluateOp_congr w rpcOf rpcOf2
        { sessionId := sessionId, expression := expr
          frameId := some n, context := context } hsame
      simp [evaluateExprTool, hf, hc]
  · intro frames hstack
    simp [evaluateExprTool, jsFalsyNum, hstack]
  · intro e hstack
    simp [evaluateExprTool, jsFalsyNum, hstack]

/-- Claim C7 witness: with a current top frame id of 7 the evaluate RPC
carries `frameId = 7`; with no frames it carries an undefined frame id;
with `frameId = 9` supplied it carries 9 even though the top frame is 7. -/
theorem evaluate_expr_frame_resolution_witness :
    evaluateExprTool trackedWorld (fun _ => frameSevenRpc) none "$x" none none none =
      .ok { result := "seven" } ∧
    evaluateExprTool trackedWorld (fun _ => noFramesEvalRpc) none "$x" none none none =
      .ok { result := "global" } ∧
    evaluateExprTool trackedWorld (fun _ => frameSevenRpc) none "$x" (some 9) none none =
      .ok { result := "other" } := by
  have h7 := evaluate_expr_frame_resolution trackedWorld (fun _ => frameSevenRpc)
    (fun _ => baseRpc) none "$x" none none 9
  have h0 := evaluate_expr_frame_resolution trackedWorld (fun _ => noFramesEvalRpc)
    (fun _ => baseRpc) none "$x" none none 9
  refine ⟨?_, ?_, ?_⟩
  · exact (h7.2.1 [sampleFrame] rfl).trans rfl
  · exact (h0.2.1 [] rfl).trans rfl
  · exact ((h7.1 (by omega)).1).trans rfl

/-- Claim C9: every list-returning bridge operation — threads, stack,
scopes, variables, and each breakpoint setter — returns the empty list when
the external RPC resolves with a response whose expected array field is
absent or holds a non-array value; no error is raised and no malformed
value is returned. -/
theorem list_ops_tolerate_malformed_fields (w : DebugWorld)
    (rpcOf : String → SessionRpc) (sessionId : Option String) (s : DebugSession)
    (hs : getSession w sessionId = .ok s) :
    (∀ v, (rpcOf s.id).threads = .ok v → (v = .absent ∨ v = .nonArray) →
      threadsOp w rpcOf sessionId = .ok []) ∧
    (∀ (threadIdO startFrameO levelsO : Option Int) v,
      (rpcOf s.id).stackTrace
          { threadId := threadIdO.getD 1, startFrame := startFrameO.getD 0
            levels := levelsO } = .ok v →
      (v = .absent ∨ v = .nonArray) →
      stackOp w rpcOf
        { sessionId := sessionId, threadId := threadIdO
          startFrame := startFrameO, levels := levelsO } = .ok []) ∧
    (∀ (frameId : Int) v,
      (rpcOf s.id).scopes frameId = .ok v → (v = .absent ∨ v = .nonArray) →
      scopesOp w rpcOf frameId sessionId = .ok []) ∧
    (∀ (ref : Int) (startO countO : Option Int) (filterO : Option VarFilter) v,
      (rpcOf s.id).variables
          { variablesReference := ref, start := startO
            count := countO, filter := filterO } = .ok v →
      (v = .absent ∨ v = .nonArray) →
      variablesOp w rpcOf
        { sessionId := sessionId, variablesReference := ref, start := startO
          count := countO, filter := filterO } = .ok []) ∧
    (∀ (file : String) (bps : List SourceBreakpoint) (sm : Option Bool) v,
      (rpcOf s.id).setBreakpoints
          { sourcePath := file, breakpoints := bps
            sourceModified := sm.getD false } = .ok v →
      (v = .absent ∨ v = .nonArray) →
      setFileBreakpointsOp w rpcOf
        { sessionId := sessionId, file := file, breakpoints := bps
          sourceModified := sm } = .ok []) ∧
    (∀ (bps : List FunctionBreakpoint) v,
      (rpcOf s.id).setFunctionBreakpoints bps = .ok v → (v = .absent ∨ v = .nonArray) →
      setFunctionBreakpointsOp w rpcOf sessionId bps = .ok []) ∧
    (∀ (filters : List String) (eo : Option (List String)) v,
      (rpcOf s.id).setExceptionBreakpoints
          { filters := filters, exceptionOptions := eo } = .ok v →
      (v = .absent ∨ v = .nonArray) →
      setExceptionBreakpointsOp w rpcOf sessionId filters eo = .ok []) := by
  refine ⟨?_, ?_, ?_, ?_, ?_, ?_, ?_⟩
  · intro v hresp hv
    rcases hv with h | h <;> subst h <;> simp [threadsOp, hs, hresp, FieldVal.toList]
  · intro threadIdO startFrameO levelsO v hresp hv
    rcases hv with h | h <;> subst h <;> simp [stackOp, hs, hresp, FieldVal.toList]
  · intro frameId v hresp hv
    rcases hv with h | h <;> subst h <;> simp [scopesOp, hs, hresp, FieldVal.toList]
  · intro ref startO countO filterO v hresp hv
    rcases hv with h | h <;> subst h <;> simp [variablesOp, hs, hresp, FieldVal.toList]
  · intro file bps sm v hresp hv
    rcases hv with h | h <;> subst h <;>
      simp [setFileBreakpointsOp, hs, hresp, FieldVal.toList]
  · intro bps v hresp hv
    rcases hv with h | h <;> subst h <;>
      simp [setFunctionBreakpointsOp, hs, hresp, FieldVal.toList]
  · intro filters eo v hresp hv
    rcases hv with h | h <;> subst h <;>
      simp [setExceptionBreakpointsOp, hs, hresp, FieldVal.toList]

/-- Claim C9 witness: each list-returning operation evaluated against
concrete sessions answering with an absent or non-array field. -/
theorem list_ops_tolerate_malformed_fields_witness :
    threadsOp trackedWorld (fun _ => absentFieldRpc) none = .ok [] ∧
    stackOp trackedWorld (fun _ => nonArrayFieldRpc) { sessionId := none } = .ok [] ∧
    scopesOp trackedWorld (fun _ => absentFieldRpc) 7 none = .ok [] ∧
    variablesOp trackedWorld (fun _ => nonArrayFieldRpc) { variablesReference := 11 } =
      .ok [] ∧
    setFileBreakpointsOp trackedWorld (fun _ => absentFieldRpc)
      { file := "/srv/app/index.php", breakpoints := [] } = .ok [] ∧
    setFunctionBreakpointsOp trackedWorld (fun _ => nonArrayFieldRpc) none [] = .ok [] ∧
    setExceptionBreakpointsOp trackedWorld (fun _ => absentFieldRpc) none [] none =
      .ok [] := by
  have ha := list_ops_tolerate_malformed_fields trackedWorld (fun _ => absentFieldRpc)
    none sampleSession rfl
  have hn := list_ops_tolerate_malformed_fields trackedWorld (fun _ => nonArrayFieldRpc)
    none sampleSession rfl
  exact ⟨ha.1 .absent rfl (Or.inl rfl),
    hn.2.1 none none none .nonArray rfl (Or.inr rfl),
    ha.2.2.1 7 .absent rfl (Or.inl rfl),
    hn.2.2.2.1 11 none none none .nonArray rfl (Or.inr rfl),
    ha.2.2.2.2.1 "/srv/app/index.php" [] none .absent rfl (Or.inl rfl),
    hn.2.2.2.2.2.1 [] .nonArray rfl (Or.inr rfl),
    ha.2.2.2.2.2.2 [] none .absent rfl (Or.inl rfl)⟩

/-- Claim C10: while the URI promise is cached, every further
`startHttpServer` call returns the same endpoint URI with the state
unchanged — in particular no second server is created; a completed
`stopHttpServer` clears the cached server reference and URI promise (and
is a no-op when no server runs); a subsequent `startHttpServer` then
creates a fresh server. -/
theorem http_server_lifecycle_spec (st : HttpServerState) (uri : String)
    (b : Bool) (k : Nat) :
    (st.serverUriPromise = some uri → startHttpServer b st = (.ok uri, st)) ∧
    (st.runningServer = some k →
      stopHttpServer true st =
        (.ok (), { st with runningServer := none, serverUriPromise := none })) ∧
    (st.runningServer = none → stopHttpServer true st = (.ok (), st)) ∧
    (st.serverUriPromise = none →
      startHttpServer true st =
        (.ok mcpEndpointUri,
         { runningServer := some st.nextServerId
           serverUriPromise := some mcpEndpointUri
           nextServerId := st.nextServerId + 1 })) := by
  refine ⟨?_, ?_, ?_, ?_⟩
  · intro h
    simp [startHttpServer, h]
  · intro h
    simp [stopHttpServer, h]
  · intro h
    simp [stopHttpServer, h]
  · intro h
    simp [startHttpServer, h]

/-- Claim C10 witness: start, a repeated start, a completed stop and a
restart evaluated from the idle state: the second start returns the same
URI without creating a server, the stop clears the cached state, and the
restart creates a fresh server. -/
theorem http_server_lifecycle_spec_witness :
    startHttpServer true httpIdleState =
      (.ok mcpEndpointUri,
       { runningServer := some 0, serverUriPromise := some mcpEndpointUri
         nextServerId := 1 }) ∧
    startHttpServer true (startHttpServer true httpIdleState).2 =
      (.ok mcpEndpointUri, (startHttpServer true httpIdleState).2) ∧
    stopHttpServer true (startHttpServer true httpIdleState).2 =
      (.ok (), { runningServer := none, serverUriPromise := none, nextServerId := 1 }) ∧
    startHttpServer true
        (stopHttpServer true (startHttpServer true httpIdleState).2).2 =
      (.ok mcpEndpointUri,
       { runningServer := some 1, serverUriPromise := some mcpEndpointUri
         nextServerId := 2 }) := by
  refine ⟨?_, ?_, ?_, ?_⟩
  · exact ((http_server_lifecycle_spec httpIdleState mcpEndpointUri true 0).2.2.2
      rfl).trans rfl
  · exact (http_server_lifecycle_spec (startHttpServer true httpIdleState).2
      mcpEndpointUri true 0).1 rfl
  · exact ((http_server_lifecycle_spec (startHttpServer true httpIdleState).2
      mcpEndpointUri true 0).2.1 rfl).trans rfl
  · exact ((http_server_lifecycle_spec
      (stopHttpServer true (startHttpServer true httpIdleState).2).2
      mcpEndpointUri true 0).2.2.2 rfl).trans rfl

end XdebugMcp
